import Mathlib

/-!
Shallow embedding of `src/pipedream_webhook.js` — the "Competitive Intel Slack
Notifier" Pipedream component.  Its `run` handler reads the inbound
HTTP body, validates the `report` field, truncates and formats the message,
posts it to the Slack `chat.postMessage` endpoint, and responds; on any caught
error it attempts one best-effort secondary Slack notification and responds
with status 500.

Modelling conventions:
* JS strings are modelled as Lean `String`, with `String.length` counting
  code points (JS counts UTF-16 units; the two agree on the ASCII inputs used
  in the scenarios).
* `report.substring(0, e)` with a possibly negative `e` clamps to 0 in JS;
  `jsSubstringTo` mirrors this with `Int.toNat`.
* The inbound body `steps.trigger.event.body` is `Option RequestBody`; `none`
  stands for a null/undefined body, whose field destructuring at line 45
  throws a TypeError (the exact runtime message text is modelled by the fixed
  constant `destructureFailureMessage`).
* Absent JSON fields are `Option.none`.  The `timestamp` field is modelled as
  a JSON number (epoch milliseconds); JS truthiness of a number is `≠ 0`, of a
  string `≠ ""`, of an absent field `false`.
* Ambient effects (`Date.now()` differences, `toLocaleString`,
  `toISOString`, `toLocaleTimeString`) and the outcomes of the two
  `$.send.http` calls are inputs gathered in `Env`; the handler is then a pure
  function `run : Config → Env → Option RequestBody → RunOutput`.
* `RunOutput.calls` records every outbound `chat.postMessage` call attempted,
  in order (an attempt is recorded even when the call throws).
  `RunOutput.logs` records console output, abbreviated to the fixed prefix of
  each `console.log` / `console.error` line.
-/

namespace CompetitiveIntel

set_option maxRecDepth 8000

/-- The configuration props of the component (lines 22–34): `slack_channel`
(default `#general`) and `max_message_length` (default 3000).  The length is a
JS integer, modelled as `Int`. -/
structure Config where
  slack_channel : String
  max_message_length : Int
deriving Repr, DecidableEq

/-- Default prop values from the component definition. -/
def defaultConfig : Config :=
  { slack_channel := "#general", max_message_length := 3000 }

/-- The inbound JSON body destructured at line 45:
`const { report, timestamp, source } = requestBody`. -/
structure RequestBody where
  report : Option String
  timestamp : Option Int
  source : Option String
deriving Repr, DecidableEq

/-- Outcome of the primary `$.send.http` call (lines 74–89): either the await
throws (transport failure), or Slack answers with `{ok, error, ts}`. -/
inductive CallOutcome where
  | throws (message : String)
  | returns (ok : Bool) (error : String) (ts : String)
deriving Repr, DecidableEq

/-- Ambient inputs of one invocation: clock/locale renderings and the network
outcomes.  `elapsedFooterMs` is `Date.now() - startTime` evaluated at line 69,
`elapsedResultMs` the one at line 103; `fmtTime t` is
`new Date(t).toLocaleString()`; `nowIso` is `new Date().toISOString()`;
`nowLocalTime` is `new Date().toLocaleTimeString()`; `secondaryFails` tells
whether the secondary notification call at lines 112–125 throws. -/
structure Env where
  fmtTime : Int → String
  nowIso : String
  nowLocalTime : String
  elapsedFooterMs : Nat
  elapsedResultMs : Nat
  primary : CallOutcome
  secondaryFails : Bool

/-- The JSON body of one outbound `chat.postMessage` call.  The secondary
error-notification call sends no `unfurl_links` / `unfurl_media` fields, hence
the `Option Bool`. -/
structure ChatPostMessage where
  channel : String
  text : String
  username : String
  icon_emoji : String
  unfurl_links : Option Bool
  unfurl_media : Option Bool
deriving Repr, DecidableEq

/-- Body of a `$.respond` response: the 400 validation body
`{error: ...}` (lines 49–52) or the 500 failure body
`{success:false, error, timestamp}` (lines 130–137). -/
inductive RespBody where
  | validationError (error : String)
  | failure (success : Bool) (error : String) (timestamp : String)
deriving Repr, DecidableEq

/-- The plain object returned on the success path (lines 98–105). -/
structure SuccessBody where
  success : Bool
  timestamp : String
  slack_channel : String
  message_length : Nat
  processing_time_ms : Nat
  slack_message_ts : String
deriving Repr, DecidableEq

/-- What the handler hands back to the runtime: a `$.respond` with an explicit
status, or the plain success object (default status). -/
inductive HandlerResult where
  | respond (status : Nat) (body : RespBody)
  | ok (body : SuccessBody)
deriving Repr, DecidableEq

/-- Full observable outcome of one invocation. -/
structure RunOutput where
  result : HandlerResult
  calls : List ChatPostMessage
  logs : List String
deriving Repr, DecidableEq

/-- The fixed truncation notice appended at line 60. -/
def truncationNotice : String := "\n\n...(truncated - see full report in tool)"

/-- JS `s.substring(0, e)`: a negative end index clamps to 0. -/
def jsSubstringTo (s : String) (e : Int) : String := String.mk (s.data.take e.toNat)

/-- JS falsiness of the destructured `report` value at line 47 (`if (!report)`):
absent, or the empty string.  Emptiness is tested on the character list. -/
def reportFalsy : Option String → Bool
  | none => true
  | some s => s.data.isEmpty

/-- The conditional `timestamp ? new Date(timestamp).toLocaleString() : ...`
interpolated at line 67: an absent or zero (falsy) numeric timestamp renders
the fixed "Unknown time" marker. -/
def renderTime (env : Env) : Option Int → String
  | none => "Unknown time"
  | some t => if t = 0 then "Unknown time" else env.fmtTime t

/-- The interpolation `source || ...` at line 68: an absent or empty (falsy)
source renders the default "Competitive Intel Tool" label. -/
def renderSource : Option String → String
  | none => "Competitive Intel Tool"
  | some s => if s.data.isEmpty then "Competitive Intel Tool" else s

/-- Lines 58–61: truncate the report when it exceeds `max_message_length`. -/
def slackMessageOf (cfg : Config) (report : String) : String :=
  if (report.length : Int) > cfg.max_message_length then
    jsSubstringTo report (cfg.max_message_length - 100) ++ truncationNotice
  else report

/-- The fixed-format footer of the template literal at lines 64–69 (everything
after `${slackMessage}`). -/
def footerOf (env : Env) (timestamp : Option Int) (source : Option String) : String :=
  "\n\n---\n📊 **Report Generated**: " ++ renderTime env timestamp ++
  "\n🔧 **Source**: " ++ renderSource source ++
  "\n⚡ **Processing Time**: " ++ toString env.elapsedFooterMs ++ "ms"

/-- `formattedMessage` at lines 64–69. -/
def formatMessage (cfg : Config) (env : Env) (report : String)
    (timestamp : Option Int) (source : Option String) : String :=
  slackMessageOf cfg report ++ footerOf env timestamp source

/-- `JSON.stringify` of the (string-valued) Slack error code, as used at
line 93.  Slack error codes contain no characters needing escapes. -/
def jsonStringifyStr (s : String) : String := "\"" ++ s ++ "\""

/-- The primary `chat.postMessage` payload (lines 81–88). -/
def primaryCall (cfg : Config) (text : String) : ChatPostMessage :=
  { channel := cfg.slack_channel, text := text,
    username := "Competitive Intel Bot", icon_emoji := ":dart:",
    unfurl_links := some false, unfurl_media := some false }

/-- The secondary error-notification text (line 121). -/
def errorNotifyText (env : Env) (errMsg : String) : String :=
  "🚨 **Competitive Intel Webhook Error**\n\n**Error**: " ++ errMsg ++
  "\n**Time**: " ++ env.nowLocalTime

/-- The secondary `chat.postMessage` payload (lines 119–124). -/
def secondaryCall (cfg : Config) (env : Env) (errMsg : String) : ChatPostMessage :=
  { channel := cfg.slack_channel, text := errorNotifyText env errMsg,
    username := "Competitive Intel Bot", icon_emoji := ":warning:",
    unfurl_links := none, unfurl_media := none }

/-- Modelled TypeError message raised when destructuring a null/undefined
body at line 45; the exact runtime wording is environment-specific. -/
def destructureFailureMessage : String :=
  "Cannot destructure property report of requestBody as it is undefined"

/-- Abbreviated console line from line 41. -/
def receivedLog : String := "📨 Received competitive intelligence report..."

/-- The catch block (lines 107–137): log the failure, attempt exactly one
secondary notification (its own failure only logged, line 127), then respond
500 with `{success:false, error, timestamp}`. -/
def handleCatch (cfg : Config) (env : Env) (errMsg : String)
    (priorCalls : List ChatPostMessage) (priorLogs : List String) : RunOutput :=
  { result := .respond 500 (.failure false errMsg env.nowIso),
    calls := priorCalls ++ [secondaryCall cfg env errMsg],
    logs := priorLogs ++ ["❌ Webhook processing failed:"] ++
      (if env.secondaryFails then ["Failed to send error to Slack:"] else []) }

/-- The `run` handler (lines 37–139). -/
def run (cfg : Config) (env : Env) (body : Option RequestBody) : RunOutput :=
  match body with
  | none =>
    -- line 45 throws on a null/undefined body; control jumps to the catch block
    handleCatch cfg env destructureFailureMessage [] [receivedLog]
  | some rb =>
    if reportFalsy rb.report then
      { result := .respond 400 (.validationError "No report data provided"),
        calls := [], logs := [receivedLog, "❌ No report data received"] }
    else
      let report := rb.report.getD ""
      let formattedMessage := formatMessage cfg env report rb.timestamp rb.source
      let pc := primaryCall cfg formattedMessage
      let logs0 := [receivedLog, "📊 Processing report",
        "📱 Sending to Slack channel: " ++ cfg.slack_channel]
      match env.primary with
      | .throws msg => handleCatch cfg env msg [pc] logs0
      | .returns ok err ts =>
        if !ok then
          handleCatch cfg env ("Slack error: " ++ jsonStringifyStr err) [pc]
            (logs0 ++ ["❌ Slack API error:"])
        else
          { result := .ok
              { success := true, timestamp := env.nowIso,
                slack_channel := cfg.slack_channel,
                message_length := formattedMessage.length,
                processing_time_ms := env.elapsedResultMs,
                slack_message_ts := ts },
            calls := [pc],
            logs := logs0 ++ ["✅ Report sent to Slack successfully!"] }

/-- The `text` of the first outbound call of an invocation, when any call was
made: this is what the primary delivery sends to the provider. -/
def outboundText (o : RunOutput) : Option String :=
  o.calls.head?.map (fun c => c.text)

/-- Recognises the secondary error-notification payload (it alone uses the
`:warning:` icon; the primary uses `:dart:`). -/
def isErrorNotify (c : ChatPostMessage) : Bool := c.icon_emoji == ":warning:"

/-- String suffix test on the underlying character lists. -/
def strEndsWith (s suffix : String) : Bool := suffix.data.isSuffixOf s.data

/-- A fixed concrete environment used to instantiate witnesses. -/
def envW : Env :=
  { fmtTime := fun _ => "11/14/2023, 10:13:20 PM",
    nowIso := "2026-10-11T00:00:00.000Z",
    nowLocalTime := "12:00:00 AM",
    elapsedFooterMs := 0,
    elapsedResultMs := 1,
    primary := .returns true "" "1700000000.000100",
    secondaryFails := false }

/-- A 151-character report, exceeding the small 150-character cap below. -/
def reportX151 : String := String.mk (List.replicate 151 'X')

/-- The 5000-character report of the truncation scenario. -/
def reportX5000 : String := String.mk (List.replicate 5000 'X')

/-- A configuration with a small 150-character cap. -/
def cfg150 : Config := { slack_channel := "#general", max_message_length := 150 }

/-- Request carrying the 151-character report and no optional fields. -/
def rb151 : RequestBody := ⟨some reportX151, none, none⟩

/-- The request of the truncation scenario:
`{report: X*5000, timestamp: 1700000000000, source: "scanner"}`. -/
def rb5000 : RequestBody := ⟨some reportX5000, some 1700000000000, some "scanner"⟩

/-- The full outbound text of the run on `rb151` under `cfg150`. -/
def outbound151 : String := (outboundText (run cfg150 envW (some rb151))).getD ""

/-- String prefix test on the underlying character lists. -/
def strStartsWith (s p : String) : Bool := p.data.isPrefixOf s.data

/-- A request whose numeric timestamp is 0 (present but falsy) and whose
source is the empty string (present but falsy). -/
def rbFalsyFields : RequestBody := ⟨some "hello", some 0, some ""⟩

/-- The outbound text produced for `rbFalsyFields`. -/
def outboundFalsyFields : String :=
  (outboundText (run defaultConfig envW (some rbFalsyFields))).getD ""

/-- The text the C7 claim predicts for `rbFalsyFields`: time formatted from
the present timestamp and the present (empty) source shown as-is. -/
def claimedFalsyFieldsText : String :=
  "hello" ++ "\n\n---\n📊 **Report Generated**: " ++ envW.fmtTime 0 ++
  "\n🔧 **Source**: " ++ "" ++
  "\n⚡ **Processing Time**: " ++ toString envW.elapsedFooterMs ++ "ms"

/-- A request with truthy timestamp and source, for footer witnesses. -/
def rbTruthyFields : RequestBody := ⟨some "hello", some 1700000000000, some "scanner"⟩

/-- An environment whose primary call reports a provider-level failure
`{ok:false, error:"invalid_auth"}`. -/
def envAuthFail : Env := { envW with primary := .returns false "invalid_auth" "" }

/-- An environment whose primary call throws at transport level. -/
def envThrows : Env := { envW with primary := .throws "ECONNRESET" }

/-- A configuration whose cap (2) is below the 100-character headroom. -/
def cfgTiny : Config := { slack_channel := "#general", max_message_length := 2 }

/-- A 3-character request against the tiny cap. -/
def rbAbc : RequestBody := ⟨some "abc", none, none⟩

/-- The length of a replicated-character string is the replication count. -/
theorem length_mk_replicate (n : Nat) (c : Char) :
    (String.mk (List.replicate n c)).length = n := by
  rw [String.length_mk, List.length_replicate]

/-- A concatenation ends with its right operand. -/
theorem strEndsWith_append (a b : String) : strEndsWith (a ++ b) b = true := by
  rw [strEndsWith, String.data_append]
  simp [List.isSuffixOf]

/-- On every non-validation path the primary payload is the first outbound
call, so the text delivered to the provider is `formatMessage`. -/
theorem outboundText_run_valid (cfg : Config) (env : Env) (rb : RequestBody)
    (h : reportFalsy rb.report = false) :
    outboundText (run cfg env (some rb)) =
      some (formatMessage cfg env (rb.report.getD "") rb.timestamp rb.source) := by
  cases hp : env.primary with
  | throws m => simp [run, h, hp, outboundText, handleCatch, primaryCall]
  | returns ok err ts =>
    cases ok <;> simp [run, h, hp, outboundText, handleCatch, primaryCall]

/-- Claim C1: for every request payload whose `report` field is missing or
empty, the handler returns a status-400 response with body
`error = "No report data provided"` and makes zero outbound calls to the chat
provider. -/
theorem missing_report_400_no_calls (cfg : Config) (env : Env) (rb : RequestBody)
    (h : rb.report = none ∨ rb.report = some "") :
    (run cfg env (some rb)).result =
      .respond 400 (.validationError "No report data provided") ∧
    (run cfg env (some rb)).calls = [] := by
  have hf : reportFalsy rb.report = true := by
    rcases h with h | h <;> simp [reportFalsy, h]
  simp [run, hf]

/-- Claim C1 witness: the empty payload `{}` gets the 400 response and no
outbound call. -/
theorem missing_report_400_no_calls_witness :
    ((⟨none, none, none⟩ : RequestBody).report = none ∨
      (⟨none, none, none⟩ : RequestBody).report = some "") ∧
    (run defaultConfig envW (some ⟨none, none, none⟩)).result =
      .respond 400 (.validationError "No report data provided") ∧
    (run defaultConfig envW (some ⟨none, none, none⟩)).calls = [] :=
  ⟨Or.inl rfl, missing_report_400_no_calls defaultConfig envW ⟨none, none, none⟩ (Or.inl rfl)⟩

/-- Claim C2 counterexample: with `max_message_length = 150` and a
151-character report, the text sent to the provider is the truncated report
plus notice plus the appended footer; its length (198) exceeds the cap and it
does not end with the truncation notice, refuting both halves of the claim. -/
theorem truncation_cap_counterexample :
    (reportX151.length : Int) > cfg150.max_message_length ∧
    outboundText (run cfg150 envW (some rb151)) = some outbound151 ∧
    ¬(((outbound151.length : Int) ≤ cfg150.max_message_length) ∧
      strEndsWith outbound151 truncationNotice = true) := by decide

/-- Claim C2 amended: for every report longer than `max_message_length` (the
cap being at least the 100-character headroom), the truncated report plus
notice — the portion of the outbound text before the footer — has length at
most `max_message_length` and ends with the fixed truncation notice; the text
actually sent to the provider is that portion with the footer appended after
it. -/
theorem truncation_cap_amended (cfg : Config) (env : Env) (rb : RequestBody)
    (report : String) (hr : rb.report = some report)
    (hf : reportFalsy rb.report = false)
    (hlen : (report.length : Int) > cfg.max_message_length)
    (hmax : (100 : Int) ≤ cfg.max_message_length) :
    outboundText (run cfg env (some rb)) =
      some (slackMessageOf cfg report ++ footerOf env rb.timestamp rb.source) ∧
    ((slackMessageOf cfg report).length : Int) ≤ cfg.max_message_length ∧
    strEndsWith (slackMessageOf cfg report) truncationNotice = true := by
  have h42 : truncationNotice.length = 42 := by decide
  refine ⟨?_, ?_, ?_⟩
  · rw [outboundText_run_valid cfg env rb hf, hr]
    rfl
  · rw [slackMessageOf, if_pos hlen, String.length_append, h42, jsSubstringTo,
      String.length_mk, List.length_take]
    omega
  · rw [slackMessageOf, if_pos hlen]
    exact strEndsWith_append _ _

/-- Claim C2 amended witness: the 151-character report against the
150-character cap. -/
theorem truncation_cap_amended_witness :
    ((reportX151.length : Int) > cfg150.max_message_length) ∧
    ((100 : Int) ≤ cfg150.max_message_length) ∧
    outboundText (run cfg150 envW (some rb151)) =
      some (slackMessageOf cfg150 reportX151 ++ footerOf envW none none) ∧
    ((slackMessageOf cfg150 reportX151).length : Int) ≤ cfg150.max_message_length ∧
    strEndsWith (slackMessageOf cfg150 reportX151) truncationNotice = true := by
  have h := truncation_cap_amended cfg150 envW rb151 reportX151 rfl (by decide)
    (by decide) (by decide)
  exact ⟨by decide, by decide, h.1, h.2.1, h.2.2⟩

/-- Claim C3: whenever the primary outbound call throws, or its response has
a falsy success indicator, the handler returns a status-500 response whose
body has `success = false`, an error message starting with (hence containing)
"Slack error" in the provider-reported-failure case, and a timestamp, and
exactly one secondary error-notification call to the same channel is
attempted. -/
theorem failure_path_500_one_secondary (cfg : Config) (env : Env) (rb : RequestBody)
    (hf : reportFalsy rb.report = false)
    (hfail : (∃ m, env.primary = .throws m) ∨
      (∃ e t, env.primary = .returns false e t)) :
    ∃ msg,
      (run cfg env (some rb)).result = .respond 500 (.failure false msg env.nowIso) ∧
      (∀ e t, env.primary = .returns false e t →
        strStartsWith msg "Slack error" = true) ∧
      (run cfg env (some rb)).calls.filter isErrorNotify =
        [secondaryCall cfg env msg] ∧
      (secondaryCall cfg env msg).channel = cfg.slack_channel := by
  rcases hfail with ⟨m, hp⟩ | ⟨e, t, hp⟩
  · refine ⟨m, ?_, ?_, ?_, rfl⟩
    · simp [run, hf, hp, handleCatch]
    · intro e t h
      rw [hp] at h
      exact absurd h (by simp)
    · simp [run, hf, hp, handleCatch, isErrorNotify, primaryCall, secondaryCall]
  · refine ⟨"Slack error: " ++ jsonStringifyStr e, ?_, ?_, ?_, rfl⟩
    · simp [run, hf, hp, handleCatch]
    · intro e₂ t₂ h
      rw [strStartsWith, String.data_append]
      have hpre : "Slack error".data <+: "Slack error: ".data := by decide
      exact List.isPrefixOf_iff_prefix.mpr (hpre.trans (List.prefix_append _ _))
    · simp [run, hf, hp, handleCatch, isErrorNotify, primaryCall, secondaryCall]

/-- Claim C3 witness: the provider answers `{ok:false, error:"invalid_auth"}`
on a valid report. -/
theorem failure_path_500_one_secondary_witness :
    reportFalsy rbTruthyFields.report = false ∧
    (∃ msg,
      (run defaultConfig envAuthFail (some rbTruthyFields)).result =
        .respond 500 (.failure false msg envAuthFail.nowIso) ∧
      (∀ e t, envAuthFail.primary = .returns false e t →
        strStartsWith msg "Slack error" = true) ∧
      (run defaultConfig envAuthFail (some rbTruthyFields)).calls.filter isErrorNotify =
        [secondaryCall defaultConfig envAuthFail msg] ∧
      (secondaryCall defaultConfig envAuthFail msg).channel =
        defaultConfig.slack_channel) :=
  ⟨by decide, failure_path_500_one_secondary defaultConfig envAuthFail rbTruthyFields
    (by decide) (Or.inr ⟨"invalid_auth", "", rfl⟩)⟩

/-- Claim C4: the result handed back to the caller (and even the list of
calls attempted) is the same whether the secondary error-notification call
succeeds or itself fails; a secondary failure only changes what is logged. -/
theorem secondary_failure_swallowed (cfg : Config) (env : Env)
    (body : Option RequestBody) (b₁ b₂ : Bool) :
    (run cfg { env with secondaryFails := b₁ } body).result =
      (run cfg { env with secondaryFails := b₂ } body).result ∧
    (run cfg { env with secondaryFails := b₁ } body).calls =
      (run cfg { env with secondaryFails := b₂ } body).calls := by
  cases body with
  | none => exact ⟨rfl, rfl⟩
  | some rb =>
    obtain ⟨ft, iso, lt, ef, er, pr, sf⟩ := env
    obtain ⟨rep, ts0, src0⟩ := rb
    cases hfb : reportFalsy rep with
    | true => simp [run, hfb]
    | false =>
      cases pr with
      | throws m =>
        cases ts0 <;>
          simp [run, hfb, handleCatch, formatMessage, footerOf, renderTime,
            secondaryCall, errorNotifyText, primaryCall]
      | returns ok err ts =>
        cases ok <;> cases ts0 <;>
          simp [run, hfb, handleCatch, formatMessage, footerOf, renderTime,
            secondaryCall, errorNotifyText, primaryCall]

/-- Claim C5: a non-empty report not exceeding the cap is sent unmodified,
with only the footer appended. -/
theorem short_report_sent_unmodified (cfg : Config) (env : Env) (rb : RequestBody)
    (report : String) (hr : rb.report = some report)
    (hf : reportFalsy rb.report = false)
    (hlen : (report.length : Int) ≤ cfg.max_message_length) :
    outboundText (run cfg env (some rb)) =
      some (report ++ footerOf env rb.timestamp rb.source) := by
  rw [outboundText_run_valid cfg env rb hf, hr]
  simp [formatMessage, slackMessageOf, not_lt.mpr hlen]

/-- Claim C5 witness: a 5-character report under the default 3000 cap. -/
theorem short_report_sent_unmodified_witness :
    reportFalsy rbTruthyFields.report = false ∧
    (("hello" : String).length : Int) ≤ defaultConfig.max_message_length ∧
    outboundText (run defaultConfig envW (some rbTruthyFields)) =
      some ("hello" ++ footerOf envW (some 1700000000000) (some "scanner")) :=
  ⟨by decide, by decide, short_report_sent_unmodified defaultConfig envW rbTruthyFields
    "hello" rfl (by decide) (by decide)⟩

/-- Claim C6: a report longer than the cap (cap at least the 100-character
headroom) yields an outbound text that is exactly the first
`max_message_length - 100` characters of the report, then the truncation
notice, then the footer; the retained prefix has exactly
`max_message_length - 100` characters, and with a provider success the
response is the success object. -/
theorem long_report_truncated (cfg : Config) (env : Env) (rb : RequestBody)
    (report : String) (hr : rb.report = some report)
    (hf : reportFalsy rb.report = false)
    (hlen : (report.length : Int) > cfg.max_message_length)
    (hmax : (100 : Int) ≤ cfg.max_message_length) :
    outboundText (run cfg env (some rb)) =
      some (jsSubstringTo report (cfg.max_message_length - 100) ++ truncationNotice ++
        footerOf env rb.timestamp rb.source) ∧
    (jsSubstringTo report (cfg.max_message_length - 100)).length =
      (cfg.max_message_length - 100).toNat ∧
    (∀ e t, env.primary = .returns true e t → (run cfg env (some rb)).result = .ok
      { success := true, timestamp := env.nowIso, slack_channel := cfg.slack_channel,
        message_length := (formatMessage cfg env report rb.timestamp rb.source).length,
        processing_time_ms := env.elapsedResultMs, slack_message_ts := t }) := by
  refine ⟨?_, ?_, ?_⟩
  · rw [outboundText_run_valid cfg env rb hf, hr]
    show some (formatMessage cfg env report rb.timestamp rb.source) = _
    rw [formatMessage, slackMessageOf, if_pos hlen]
  · rw [jsSubstringTo, String.length_mk, List.length_take]
    have hlen2 : (report.data.length : Int) > cfg.max_message_length := hlen
    omega
  · intro e t hp
    have hf2 : reportFalsy (some report) = false := by rw [← hr]; exact hf
    simp [run, hf2, hp, hr]

/-- Claim C6 witness: the scenario report of 5000 X characters under the
default 3000-character cap retains exactly 2900 characters. -/
theorem long_report_truncated_witness :
    ((reportX5000.length : Int) > defaultConfig.max_message_length) ∧
    ((100 : Int) ≤ defaultConfig.max_message_length) ∧
    (jsSubstringTo reportX5000 (defaultConfig.max_message_length - 100)).length = 2900 ∧
    outboundText (run defaultConfig envW (some rb5000)) =
      some (jsSubstringTo reportX5000 (defaultConfig.max_message_length - 100) ++
        truncationNotice ++ footerOf envW (some 1700000000000) (some "scanner")) ∧
    (run defaultConfig envW (some rb5000)).result = .ok
      { success := true, timestamp := envW.nowIso,
        slack_channel := defaultConfig.slack_channel,
        message_length :=
          (formatMessage defaultConfig envW reportX5000
            (some 1700000000000) (some "scanner")).length,
        processing_time_ms := envW.elapsedResultMs,
        slack_message_ts := "1700000000.000100" } := by
  have hlen : (reportX5000.length : Int) > defaultConfig.max_message_length := by
    rw [reportX5000, length_mk_replicate]; decide
  have h := long_report_truncated defaultConfig envW rb5000 reportX5000
    rfl (by decide) hlen (by decide)
  refine ⟨hlen, by decide, ?_, h.1, h.2.2 "" "1700000000.000100" rfl⟩
  rw [h.2.1]
  decide

/-- Claim C7 counterexample: on a request whose timestamp is present but zero
and whose source is present but empty, the outbound text renders the
"Unknown time" marker and the default source label instead of the formatted
present timestamp and the present (empty) source the claim calls for. -/
theorem footer_fields_counterexample :
    rbFalsyFields.timestamp = some 0 ∧
    rbFalsyFields.source = some "" ∧
    outboundText (run defaultConfig envW (some rbFalsyFields)) =
      some outboundFalsyFields ∧
    envW.fmtTime 0 ≠ "Unknown time" ∧
    outboundFalsyFields ≠ claimedFalsyFieldsText := by decide

/-- Claim C7 amended: the footer shows the generation time formatted from the
timestamp exactly when the timestamp is present and truthy (nonzero), and the
literal "Unknown time" marker when it is absent or zero; it shows the source
exactly when the source is present and non-empty, and the default
"Competitive Intel Tool" label when it is absent or empty. -/
theorem footer_fields_amended (cfg : Config) (env : Env) (rb : RequestBody)
    (hf : reportFalsy rb.report = false) :
    outboundText (run cfg env (some rb)) =
      some (slackMessageOf cfg (rb.report.getD "") ++
        "\n\n---\n📊 **Report Generated**: " ++ renderTime env rb.timestamp ++
        "\n🔧 **Source**: " ++ renderSource rb.source ++
        "\n⚡ **Processing Time**: " ++ toString env.elapsedFooterMs ++ "ms") ∧
    (∀ t : Int, rb.timestamp = some t → t ≠ 0 →
      renderTime env rb.timestamp = env.fmtTime t) ∧
    ((rb.timestamp = none ∨ rb.timestamp = some 0) →
      renderTime env rb.timestamp = "Unknown time") ∧
    (∀ s : String, rb.source = some s → s.data.isEmpty = false →
      renderSource rb.source = s) ∧
    ((rb.source = none ∨ rb.source = some "") →
      renderSource rb.source = "Competitive Intel Tool") := by
  refine ⟨?_, ?_, ?_, ?_, ?_⟩
  · rw [outboundText_run_valid cfg env rb hf]
    simp [formatMessage, footerOf, String.append_assoc]
  · intro t ht hne
    rw [ht, renderTime, if_neg hne]
  · rintro (ht | ht) <;> rw [ht] <;> simp [renderTime]
  · intro s hs hne
    rw [hs, renderSource, hne]
    rfl
  · rintro (hs | hs) <;> rw [hs] <;> simp [renderSource]

/-- Claim C7 amended witness: truthy timestamp and source are shown as given;
the run on `rbFalsyFields` shows both fallback markers. -/
theorem footer_fields_amended_witness :
    reportFalsy rbTruthyFields.report = false ∧
    renderTime envW rbTruthyFields.timestamp = envW.fmtTime 1700000000000 ∧
    renderSource rbTruthyFields.source = "scanner" ∧
    outboundText (run defaultConfig envW (some rbTruthyFields)) =
      some (slackMessageOf defaultConfig "hello" ++
        "\n\n---\n📊 **Report Generated**: " ++ renderTime envW (some 1700000000000) ++
        "\n🔧 **Source**: " ++ renderSource (some "scanner") ++
        "\n⚡ **Processing Time**: " ++ toString envW.elapsedFooterMs ++ "ms") := by
  have h := footer_fields_amended defaultConfig envW rbTruthyFields (by decide)
  exact ⟨by decide, h.2.1 1700000000000 rfl (by decide),
    h.2.2.2.1 "scanner" rfl (by decide), h.1⟩

/-- Claim C8: on the success path the handler returns the plain object with
the success flag, ISO timestamp, configured channel, final formatted message
length, elapsed processing time, and the provider message identifier. -/
theorem success_path_result (cfg : Config) (env : Env) (rb : RequestBody)
    (report : String) (e t : String) (hr : rb.report = some report)
    (hf : reportFalsy rb.report = false)
    (hp : env.primary = .returns true e t) :
    (run cfg env (some rb)).result = .ok
      { success := true, timestamp := env.nowIso, slack_channel := cfg.slack_channel,
        message_length := (formatMessage cfg env report rb.timestamp rb.source).length,
        processing_time_ms := env.elapsedResultMs, slack_message_ts := t } := by
  have hf2 : reportFalsy (some report) = false := by rw [← hr]; exact hf
  simp [run, hf2, hp, hr]

/-- Claim C8 witness: a valid request with a successful provider response. -/
theorem success_path_result_witness :
    reportFalsy rbTruthyFields.report = false ∧
    envW.primary = .returns true "" "1700000000.000100" ∧
    (run defaultConfig envW (some rbTruthyFields)).result = .ok
      { success := true, timestamp := envW.nowIso,
        slack_channel := defaultConfig.slack_channel,
        message_length :=
          (formatMessage defaultConfig envW "hello"
            (some 1700000000000) (some "scanner")).length,
        processing_time_ms := envW.elapsedResultMs,
        slack_message_ts := "1700000000.000100" } :=
  ⟨by decide, rfl, success_path_result defaultConfig envW rbTruthyFields "hello" ""
    "1700000000.000100" rfl (by decide) rfl⟩

/-- Claim C9: a null or undefined request body makes field destructuring
throw before the missing-report check, so the handler answers with the
status-500 failure response — not the status-400 validation response — after
attempting exactly one secondary error notification. -/
theorem null_body_500_after_notify (cfg : Config) (env : Env) :
    (run cfg env none).result =
      .respond 500 (.failure false destructureFailureMessage env.nowIso) ∧
    (run cfg env none).calls = [secondaryCall cfg env destructureFailureMessage] ∧
    ∀ b : RespBody, (run cfg env none).result ≠ .respond 400 b := by
  refine ⟨rfl, rfl, ?_⟩
  intro b h
  simp [run, handleCatch] at h

/-- Claim C9 witness: the concrete null-body run under the default
configuration. -/
theorem null_body_500_after_notify_witness :
    (run defaultConfig envW none).result =
      .respond 500 (.failure false destructureFailureMessage envW.nowIso) ∧
    (run defaultConfig envW none).calls =
      [secondaryCall defaultConfig envW destructureFailureMessage] ∧
    (run defaultConfig envW none).result ≠
      .respond 400 (.validationError "No report data provided") :=
  ⟨(null_body_500_after_notify defaultConfig envW).1,
    (null_body_500_after_notify defaultConfig envW).2.1,
    (null_body_500_after_notify defaultConfig envW).2.2
      (.validationError "No report data provided")⟩

/-- Claim C10: when the cap is at most the 100-character headroom and the
report still exceeds the cap, the truncation bound is non-positive, the
retained report prefix is empty, and the outbound text is just the
truncation notice followed by the footer. -/
theorem tiny_cap_empty_retained (cfg : Config) (env : Env) (rb : RequestBody)
    (report : String) (hr : rb.report = some report)
    (hf : reportFalsy rb.report = false)
    (hmax : cfg.max_message_length ≤ 100)
    (hlen : (report.length : Int) > cfg.max_message_length) :
    jsSubstringTo report (cfg.max_message_length - 100) = "" ∧
    outboundText (run cfg env (some rb)) =
      some (truncationNotice ++ footerOf env rb.timestamp rb.source) := by
  have h0 : (cfg.max_message_length - 100).toNat = 0 := by omega
  have hempty : jsSubstringTo report (cfg.max_message_length - 100) = "" := by
    rw [jsSubstringTo, h0, List.take_zero]
  refine ⟨hempty, ?_⟩
  rw [outboundText_run_valid cfg env rb hf, hr]
  show some (formatMessage cfg env report rb.timestamp rb.source) = _
  rw [formatMessage, slackMessageOf, if_pos hlen, hempty, String.empty_append]

/-- Claim C10 witness: a 3-character report against a cap of 2. -/
theorem tiny_cap_empty_retained_witness :
    cfgTiny.max_message_length ≤ 100 ∧
    ((("abc" : String).length : Int) > cfgTiny.max_message_length) ∧
    jsSubstringTo "abc" (cfgTiny.max_message_length - 100) = "" ∧
    outboundText (run cfgTiny envW (some rbAbc)) =
      some (truncationNotice ++ footerOf envW none none) :=
  ⟨by decide, by decide,
    (tiny_cap_empty_retained cfgTiny envW rbAbc "abc" rfl (by decide) (by decide)
      (by decide)).1,
    (tiny_cap_empty_retained cfgTiny envW rbAbc "abc" rfl (by decide) (by decide)
      (by decide)).2⟩

end CompetitiveIntel
